import Mathlib

/-!
Verification development for the learnit-anki card/deck generation pipeline.

Shallow embedding of:
  - src/core/domain/models.py        (data model)
  - src/core/domain/interfaces.py    (provider ports)
  - src/core/use_cases/generate_card.py  (GenerateCardUseCase.execute)
  - src/core/use_cases/generate_deck.py  (GenerateDeckUseCase.execute)
  - src/adapters/anki/genanki_exporter.py (stable identifier derivation)

Conventions of the embedding:
  - Python `async` methods that may raise are embedded as functions returning
    `Except Err _`; an `Except.error` value is a raised exception, an
    `Except.ok` value is a normal return.
  - Python `Optional[T]` return values are `Option T` inside the `ok` payload.
  - Fresh values produced by `uuid.uuid4()` / `datetime.utcnow()` default
    factories are passed in explicitly through a `FreshEnv` record (explicit
    state passing for the only nondeterministic effects the core uses).
  - `asyncio.gather(*tasks, return_exceptions=True)` is embedded as a map over
    the task list: it preserves input order and captures each task's exception
    as a value instead of propagating it.
  - `bytes` values are `List Nat`; the empty list is falsy, as in Python.
  - `hashlib.sha256(...).hexdigest()` is an external library function and is
    taken as a parameter `sha256hexdigest : String → String`.
-/

namespace LearnitAnki

/-- models.py `AudioFormat` enum. -/
inductive AudioFormat
  | MP3
  | OGG
  | WAV
  deriving DecidableEq, Repr

/-- models.py `CardDifficulty` enum. -/
inductive CardDifficulty
  | A1
  | A2
  | B1
  | B2
  | C1
  | C2
  deriving DecidableEq, Repr

/-- models.py `Word` dataclass. -/
structure Word where
  text : String
  -- source field name `lemma` (a command keyword in Lean/Mathlib)
  lemma_ : String
  pos : String
  definition : String
  definition_native : Option String := none
  pronunciation : Option String := none
  deriving DecidableEq, Repr

/-- models.py `Sentence` dataclass.  `id` and `created_at` have nondeterministic
default factories (`uuid.uuid4()`, `datetime.utcnow()`); the embedding passes
them explicitly at every construction site. -/
structure Sentence where
  text : String
  language : String
  id : String
  source : Option String := none
  difficulty : Option CardDifficulty := none
  created_at : Nat
  deriving DecidableEq, Repr

/-- models.py `Translation` dataclass.  `confidence: Optional[float]` is kept as
an abstract rational to stay decidable; no claim reasons about its value. -/
structure Translation where
  text : String
  target_language : String
  confidence : Option Rat := none
  provider : String := "unknown"
  deriving DecidableEq, Repr

/-- models.py `WordBreakdown` dataclass. -/
structure WordBreakdown where
  words : List Word
  deriving DecidableEq, Repr

/-- models.py `AudioFile` dataclass. -/
structure AudioFile where
  filename : String
  format : AudioFormat
  language : Option String := none
  id : String
  duration_seconds : Option Rat := none
  url : Option String := none
  provider : String := "unknown"
  deriving DecidableEq, Repr

/-- models.py `GrammarNote` dataclass. -/
structure GrammarNote where
  title : String
  explanation : String
  examples : List String := []
  deriving DecidableEq, Repr

/-- models.py `FlashCard` dataclass.  The Python annotation of
`word_breakdown` is `WordBreakdown`, but dataclasses do not enforce
annotations and `GenerateCardUseCase.execute` stores the unchecked
`Optional[WordBreakdown]` result of `DictionaryService.analyze_sentence`
in it (generate_card.py line 92, 140); `FlashCard._format_word_breakdown_simple`
and the exporter both guard for a `None` value (models.py line 120,
genanki_exporter.py line 561).  The embedding therefore types it `Option`. -/
structure FlashCard where
  sentence : Sentence
  translation : Translation
  word_breakdown : Option WordBreakdown
  id : String
  audio : Option AudioFile := none
  grammar_notes : List GrammarNote := []
  tags : List String := []
  created_at : Nat
  deriving DecidableEq, Repr

/-- models.py `Deck` dataclass. -/
structure Deck where
  name : String
  language_pair : String × String
  id : String
  description : Option String := none
  cards : List FlashCard := []
  created_at : Nat
  tags : List String := []
  deriving DecidableEq, Repr

/-- A Python exception value.  `attributeError` is the `AttributeError` raised
by attribute access on `None`; `service msg` is any exception raised inside a
provider adapter. -/
inductive Err
  | service (msg : String)
  | attributeError (msg : String)
  deriving DecidableEq, Repr

/-- Raw audio bytes (`bytes`).  The empty byte string is falsy in Python. -/
abbrev Bytes := List Nat

/-- interfaces.py `TranslationService` port: `translate` returns
`Optional[Translation]` and, being a Python coroutine, may also raise. -/
structure TranslationService where
  translate : String → String → String → Except Err (Option Translation)

/-- interfaces.py `DictionaryService` port (only `analyze_sentence` is used by
the card assembler). -/
structure DictionaryService where
  analyze_sentence : String → String → String → Except Err (Option WordBreakdown)

/-- interfaces.py `AudioService` port: returns `(None, None)` on failure. -/
structure AudioService where
  generate_audio : String → String → Except Err (Option AudioFile × Option Bytes)

/-- interfaces.py `StorageService` port (only `save_audio` is used by the card
assembler): returns the path/URL or `None` on failure. -/
structure StorageService where
  save_audio : AudioFile → Bytes → Except Err (Option String)

/-- interfaces.py `GrammarService` port. -/
structure GrammarService where
  explain_grammar : String → String → Except Err (List GrammarNote)

/-- interfaces.py `DeckExporter` port: returns the written path or `None`. -/
structure DeckExporter where
  export_deck : Deck → String → Except Err (Option String)

/-- The fresh values one `GenerateCardUseCase.execute` call draws from its
default factories: the `Sentence.id` uuid, the `FlashCard.id` uuid and the
current time. -/
structure FreshEnv where
  sentence_id : String
  card_id : String
  now : Nat
  deriving DecidableEq, Repr

/-- Python `x or default` for `x : Optional[str]`: `None` and the empty string
are falsy and select the default (generate_card.py lines 73-74,
generate_deck.py lines 64-65). -/
def pyOr (v : Option String) (d : String) : String :=
  match v with
  | none => d
  | some s => if s = "" then d else s

/-- generate_card.py `GenerateCardUseCase` constructor state (lines 37-43). -/
structure GenerateCardUseCase where
  translator : TranslationService
  dictionary : DictionaryService
  audio : AudioService
  storage : StorageService
  grammar : Option GrammarService
  default_source_lang : String
  default_target_lang : String

/-- generate_card.py lines 99-125 (step 3, "Generate and Save Audio").
If generation yields a truthy model and truthy (non-empty) bytes, the bytes
are saved; a save result that is a string starting with `http://`/`https://`
is recorded as the asset's `url`; the asset's `language` is set and the asset
is attached *regardless of whether the save returned `None`*.  Otherwise the
failure is only logged and no asset is attached. -/
def GenerateCardUseCase.audioStep (u : GenerateCardUseCase)
    (sentence_text src_lang : String) (include_audio : Bool) :
    Except Err (Option AudioFile) :=
  if include_audio then
    match u.audio.generate_audio sentence_text src_lang with
    | .error e => .error e
    | .ok (generated_audio_model?, audio_data?) =>
      match generated_audio_model?, audio_data? with
      | some generated_audio_model, some audio_data =>
        if audio_data.isEmpty then
          -- `if generated_audio_model and audio_data:` — empty bytes are falsy
          .ok none
        else
          match u.storage.save_audio generated_audio_model audio_data with
          | .error e => .error e
          | .ok storage_location =>
            let m :=
              match storage_location with
              | some s =>
                if s.startsWith "http://" || s.startsWith "https://" then
                  { generated_audio_model with url := some s }
                else generated_audio_model
              | none => generated_audio_model
            .ok (some { m with language := some src_lang })
      | _, _ => .ok none
  else
    .ok none

/-- generate_card.py lines 128-134 (step 4, "Get Grammar Notes"):
`if include_grammar and self.grammar:`. -/
def GenerateCardUseCase.grammarStep (u : GenerateCardUseCase)
    (sentence_text src_lang : String) (include_grammar : Bool) :
    Except Err (List GrammarNote) :=
  if include_grammar then
    match u.grammar with
    | some g => g.explain_grammar sentence_text src_lang
    | none => .ok []
  else
    .ok []

/-- generate_card.py `GenerateCardUseCase.execute` (lines 45-146).
Note two behaviours taken directly from the source:
  - a `None` translation makes line 87 (`translation.target_language`) raise
    `AttributeError`;
  - the `Optional` result of `analyze_sentence` is stored in the card without
    any check (lines 92-96, 137-146). -/
def GenerateCardUseCase.execute (u : GenerateCardUseCase) (fresh : FreshEnv)
    (sentence_text : String) (source_lang target_lang : Option String)
    (include_audio include_grammar : Bool) : Except Err FlashCard :=
  let src_lang := pyOr source_lang u.default_source_lang
  let tgt_lang := pyOr target_lang u.default_target_lang
  let sentence : Sentence :=
    { text := sentence_text, language := src_lang,
      id := fresh.sentence_id, created_at := fresh.now }
  match u.translator.translate sentence_text src_lang tgt_lang with
  | .error e => .error e
  | .ok none =>
    -- line 87: `if not translation.target_language` on a `None` translation
    .error (Err.attributeError "NoneType has no attribute target_language")
  | .ok (some translation0) =>
    let translation :=
      if translation0.target_language = "" then
        { translation0 with target_language := tgt_lang }
      else translation0
    match u.dictionary.analyze_sentence sentence_text src_lang tgt_lang with
    | .error e => .error e
    | .ok word_breakdown =>
      match u.audioStep sentence_text src_lang include_audio with
      | .error e => .error e
      | .ok audio_model =>
        match u.grammarStep sentence_text src_lang include_grammar with
        | .error e => .error e
        | .ok grammar_notes =>
          .ok { sentence := sentence,
                translation := translation,
                word_breakdown := word_breakdown,
                id := fresh.card_id,
                audio := audio_model,
                grammar_notes := grammar_notes,
                tags := [],
                created_at := fresh.now }

/-- The fresh values one `GenerateDeckUseCase.execute` call draws for the
`Deck` it constructs (`Deck.id` uuid and `created_at`). -/
structure DeckFresh where
  deck_id : String
  now : Nat
  deriving DecidableEq, Repr

/-- generate_deck.py `GenerateDeckUseCase` constructor state (lines 32-36). -/
structure GenerateDeckUseCase where
  card_generator : GenerateCardUseCase
  exporter : DeckExporter
  storage : StorageService
  default_source_lang : String
  default_target_lang : String

/-- generate_deck.py lines 73-87: one `card_generator.execute` task per
sentence, gathered with `asyncio.gather(*tasks, return_exceptions=True)`,
which preserves input order and captures each task's exception as a value.
`fresh i` supplies the uuid/time draws of the task for sentence index `i`. -/
def GenerateDeckUseCase.gatherResults (u : GenerateDeckUseCase)
    (fresh : Nat → FreshEnv) (sentences : List String)
    (src_lang tgt_lang : String) (include_audio include_grammar : Bool) :
    List (Except Err FlashCard) :=
  sentences.enum.map fun p =>
    u.card_generator.execute (fresh p.1) p.2
      (some src_lang) (some tgt_lang) include_audio include_grammar

/-- generate_deck.py lines 90-98: the result-processing loop
(`for i, result in enumerate(generated_results)`), walking the results
paired with their originating sentences.  Returns the collected cards in
input-index order and, for each captured exception, the reported
`(index, sentence_text)` pair of the skip warning printed at line 96. -/
def processResults (i : Nat) :
    List (String × Except Err FlashCard) → List FlashCard × List (Nat × String)
  | [] => ([], [])
  | (_, Except.ok card) :: rest =>
    (card :: (processResults (i + 1) rest).1, (processResults (i + 1) rest).2)
  | (sentence_text, Except.error _) :: rest =>
    ((processResults (i + 1) rest).1,
     (i, sentence_text) :: (processResults (i + 1) rest).2)

/-- The batch phase of generate_deck.py `GenerateDeckUseCase.execute`
(lines 63-112): resolve the language pair, gather all card results, partition
them, and either report `Failed: No cards generated for deck '<name>'.`
(line 105, a *normal return value*) or construct the `Deck` (lines 108-112).
The first component is the list of per-sentence failure reports. -/
def GenerateDeckUseCase.assemble (u : GenerateDeckUseCase)
    (fresh : Nat → FreshEnv) (deck_fresh : DeckFresh)
    (sentences : List String) (deck_name : String)
    (source_lang target_lang : Option String)
    (include_audio include_grammar : Bool) :
    List (Nat × String) × (String ⊕ Deck) :=
  let src_lang := pyOr source_lang u.default_source_lang
  let tgt_lang := pyOr target_lang u.default_target_lang
  let lang_pair := (src_lang, tgt_lang)
  let generated_results :=
    u.gatherResults fresh sentences src_lang tgt_lang include_audio include_grammar
  let processed := processResults 0 (sentences.zip generated_results)
  if processed.1.isEmpty then
    (processed.2, Sum.inl ("Failed: No cards generated for deck '" ++ deck_name ++ "'."))
  else
    (processed.2, Sum.inr
      { name := deck_name,
        language_pair := lang_pair,
        id := deck_fresh.deck_id,
        cards := processed.1,
        created_at := deck_fresh.now })

/-- generate_deck.py `GenerateDeckUseCase.execute` (lines 38-126): after the
batch phase, either return the failure-indicator string (line 105) or hand the
deck to the exporter (lines 116-126; an exporter exception is re-raised, a
normal exporter result — the written path or `None` — is returned). -/
def GenerateDeckUseCase.execute (u : GenerateDeckUseCase)
    (fresh : Nat → FreshEnv) (deck_fresh : DeckFresh)
    (sentences : List String) (deck_name output_path : String)
    (source_lang target_lang : Option String)
    (include_audio include_grammar : Bool) : Except Err (Option String) :=
  match (u.assemble fresh deck_fresh sentences deck_name source_lang target_lang
      include_audio include_grammar).2 with
  | Sum.inl msg => .ok (some msg)
  | Sum.inr deck => u.exporter.export_deck deck output_path

/-! ## Identifier derivation (src/adapters/anki/genanki_exporter.py) -/

/-- genanki_exporter.py line 28. -/
def DEFAULT_DECK_ID_SALT : String := "anki-card-generator-deck-salt"

/-- genanki_exporter.py line 29. -/
def DEFAULT_MODEL_ID_SALT : String := "anki-card-generator-model-salt"

/-- Value of one hex digit, as `int(s, 16)` reads it.  `sha256().hexdigest()`
only ever produces `0-9a-f`; other characters (on which Python would raise)
are mapped to 0 to keep the function total. -/
def hexDigitVal (c : Char) : Nat :=
  if '0' ≤ c ∧ c ≤ '9' then c.toNat - '0'.toNat
  else if 'a' ≤ c ∧ c ≤ 'f' then c.toNat - 'a'.toNat + 10
  else if 'A' ≤ c ∧ c ≤ 'F' then c.toNat - 'A'.toNat + 10
  else 0

/-- Python `int(s, 16)` on a hex string (a fold over the string's
characters). -/
def hexToNat (s : String) : Nat :=
  s.data.foldl (fun acc c => acc * 16 + hexDigitVal c) 0

/-- genanki_exporter.py `GenankiExporter._generate_stable_id` (lines 53-64):
sha256 the salted input, keep the first 8 hex characters, mask to a positive
31-bit value with `& 0x7FFFFFFF`, and remap 0 to 1.  `sha256hexdigest` stands
for `lambda s: hashlib.sha256(s.encode()).hexdigest()`, an external pure
function.  The embedding is total: the Python body can raise nothing. -/
def generate_stable_id (sha256hexdigest : String → String)
    (base_string salt : String) : Nat :=
  let hash_input := base_string ++ "-" ++ salt
  let hash_value := (sha256hexdigest hash_input).take 8
  let stable_id := hexToNat hash_value &&& 0x7FFFFFFF
  if stable_id ≠ 0 then stable_id else 1

/-- genanki_exporter.py `GenankiExporter._generate_stable_deck_id`
(lines 604-607). -/
def generate_stable_deck_id (sha256hexdigest : String → String)
    (deck_name : String) (lang_pair : String × String) : Nat :=
  let id_str := deck_name ++ "-" ++ lang_pair.1 ++ "-" ++ lang_pair.2
  generate_stable_id sha256hexdigest id_str DEFAULT_DECK_ID_SALT

/-- The deck identifier `export_deck` derives for a deck (genanki_exporter.py
line 450: `self._generate_stable_deck_id(deck.name, lang_pair)` with
`lang_pair = deck.language_pair`). -/
def deckIdOf (sha256hexdigest : String → String) (deck : Deck) : Nat :=
  generate_stable_deck_id sha256hexdigest deck.name deck.language_pair

/-- The model (note-type) identifier for a language pair
(genanki_exporter.py lines 91-92). -/
def model_id_of (sha256hexdigest : String → String)
    (lang_pair : String × String) : Nat :=
  generate_stable_id sha256hexdigest (lang_pair.1 ++ "-" ++ lang_pair.2)
    DEFAULT_MODEL_ID_SALT

/-- The arguments `_convert_card_to_note` passes to the external
`genanki.guid_for` to derive the per-note identifier (genanki_exporter.py
line 546: `genanki.guid_for(card.sentence.id, model.model_id)`).
`guid_for` is a deterministic hash of exactly these arguments, so the note
identifier is a pure function of this pair. -/
def note_guid_args (card : FlashCard) (model_id : Nat) : String × Nat :=
  (card.sentence.id, model_id)

/-! ## General lemmas about the embedding -/

theorem pyOr_ne_empty {v : Option String} {d : String} (h : d ≠ "") :
    pyOr v d ≠ "" := by
  cases v with
  | none => exact h
  | some s =>
    simp only [pyOr]
    split
    · exact h
    · next hs => exact hs

theorem pyOr_some_of_ne {s : String} (d : String) (h : s ≠ "") :
    pyOr (some s) d = s := by
  simp [pyOr, h]

theorem gatherResults_length (u : GenerateDeckUseCase) (fresh : Nat → FreshEnv)
    (sentences : List String) (src_lang tgt_lang : String) (ia ig : Bool) :
    (u.gatherResults fresh sentences src_lang tgt_lang ia ig).length =
      sentences.length := by
  simp [GenerateDeckUseCase.gatherResults, List.enum_length]

theorem processResults_all_ok (i : Nat)
    (xs : List (String × Except Err FlashCard))
    (h : ∀ p ∈ xs, ∃ c, p.2 = Except.ok c) :
    (processResults i xs).2 = [] ∧ (processResults i xs).1.length = xs.length := by
  induction xs generalizing i with
  | nil => simp [processResults]
  | cons p rest ih =>
    obtain ⟨c, hc⟩ := h p (List.mem_cons_self p rest)
    have hr := ih (i + 1) (fun q hq => h q (List.mem_cons_of_mem p hq))
    obtain ⟨s, r⟩ := p
    simp only at hc
    subst hc
    simp [processResults, hr.1, hr.2]

theorem processResults_all_error (i : Nat)
    (xs : List (String × Except Err FlashCard))
    (h : ∀ p ∈ xs, ∃ e, p.2 = Except.error e) :
    (processResults i xs).1 = [] := by
  induction xs generalizing i with
  | nil => simp [processResults]
  | cons p rest ih =>
    obtain ⟨e, he⟩ := h p (List.mem_cons_self p rest)
    have hr := ih (i + 1) (fun q hq => h q (List.mem_cons_of_mem p hq))
    obtain ⟨s, r⟩ := p
    simp only at he
    subst he
    simp [processResults, hr]

theorem mem_processResults_cards {i : Nat}
    {xs : List (String × Except Err FlashCard)} {c : FlashCard}
    (h : c ∈ (processResults i xs).1) : ∃ p ∈ xs, p.2 = Except.ok c := by
  induction xs generalizing i with
  | nil => simp [processResults] at h
  | cons p rest ih =>
    obtain ⟨s, r⟩ := p
    cases r with
    | ok card =>
      simp only [processResults, List.mem_cons] at h
      rcases h with h | h
      · exact ⟨(s, Except.ok card), List.mem_cons_self _ _, by simp [h]⟩
      · obtain ⟨q, hq, hq2⟩ := ih h
        exact ⟨q, List.mem_cons_of_mem _ hq, hq2⟩
    | error e =>
      simp only [processResults] at h
      obtain ⟨q, hq, hq2⟩ := ih h
      exact ⟨q, List.mem_cons_of_mem _ hq, hq2⟩

theorem processResults_one_error (B : List (Except Err FlashCard)) (e : Err) :
    ∀ (A : List (Except Err FlashCard)) (ss : List String) (i : Nat),
    ss.length = A.length + 1 + B.length →
    (∀ r ∈ A, ∃ c, r = Except.ok c) →
    (∀ r ∈ B, ∃ c, r = Except.ok c) →
    (processResults i (ss.zip (A ++ Except.error e :: B))).1.length + 1 =
      ss.length ∧
    (processResults i (ss.zip (A ++ Except.error e :: B))).2 =
      [(i + A.length, ss.getD A.length "")] := by
  intro A
  induction A with
  | nil =>
    intro ss i hlen hA hB
    cases ss with
    | nil =>
      simp only [List.length_nil] at hlen
      omega
    | cons s ss' =>
      simp only [List.length_cons, List.length_nil] at hlen
      have hlen' : ss'.length = B.length := by omega
      have hok : ∀ p ∈ ss'.zip B, ∃ c, p.2 = Except.ok c := by
        intro p hp
        exact hB p.2 (List.of_mem_zip hp).2
      obtain ⟨h2, h1⟩ := processResults_all_ok (i + 1) (ss'.zip B) hok
      simp only [List.zip_eq_zipWith] at h1 h2
      simp only [List.nil_append, List.zip_eq_zipWith, List.zipWith_cons_cons,
        processResults]
      constructor
      · rw [h1, ← List.zip_eq_zipWith, List.length_zip, hlen']
        simp only [List.length_cons]
        omega
      · rw [h2]
        simp
  | cons a A' ih =>
    intro ss i hlen hA hB
    cases ss with
    | nil =>
      simp only [List.length_nil] at hlen
      omega
    | cons s ss' =>
      simp only [List.length_cons] at hlen
      have hlen' : ss'.length = A'.length + 1 + B.length := by omega
      obtain ⟨c, hc⟩ := hA a (List.mem_cons_self a A')
      subst hc
      have hA' : ∀ r ∈ A', ∃ c, r = Except.ok c :=
        fun r hr => hA r (List.mem_cons_of_mem _ hr)
      obtain ⟨ih1, ih2⟩ := ih ss' (i + 1) hlen' hA' hB
      simp only [List.zip_eq_zipWith] at ih1 ih2
      simp only [List.cons_append, List.zip_eq_zipWith, List.zipWith_cons_cons,
        List.append_eq, processResults]
      constructor
      · simpa using ih1
      · rw [ih2]
        have harith : i + 1 + A'.length = i + (A'.length + 1) := by omega
        simp [harith]

theorem execute_ok_sentence {u : GenerateCardUseCase} {fresh : FreshEnv}
    {text : String} {sl tl : Option String} {ia ig : Bool} {c : FlashCard}
    (h : u.execute fresh text sl tl ia ig = Except.ok c) :
    c.sentence = { text := text, language := pyOr sl u.default_source_lang,
                   id := fresh.sentence_id, created_at := fresh.now } := by
  simp only [GenerateCardUseCase.execute] at h
  repeat' split at h
  all_goals first
    | exact Except.noConfusion h
    | (injection h with h2; subst h2; rfl)

theorem assemble_fst (u : GenerateDeckUseCase) (fresh : Nat → FreshEnv)
    (df : DeckFresh) (sentences : List String) (deck_name : String)
    (sl tl : Option String) (ia ig : Bool) :
    (u.assemble fresh df sentences deck_name sl tl ia ig).1 =
      (processResults 0 (sentences.zip
        (u.gatherResults fresh sentences (pyOr sl u.default_source_lang)
          (pyOr tl u.default_target_lang) ia ig))).2 := by
  simp only [GenerateDeckUseCase.assemble]
  split <;> rfl

theorem assemble_snd_of_not_empty {u : GenerateDeckUseCase}
    {fresh : Nat → FreshEnv} {df : DeckFresh} {sentences : List String}
    {deck_name : String} {sl tl : Option String} {ia ig : Bool}
    (h : (processResults 0 (sentences.zip
        (u.gatherResults fresh sentences (pyOr sl u.default_source_lang)
          (pyOr tl u.default_target_lang) ia ig))).1.isEmpty = false) :
    (u.assemble fresh df sentences deck_name sl tl ia ig).2 =
      Sum.inr
        { name := deck_name,
          language_pair := (pyOr sl u.default_source_lang,
                            pyOr tl u.default_target_lang),
          id := df.deck_id,
          cards := (processResults 0 (sentences.zip
            (u.gatherResults fresh sentences (pyOr sl u.default_source_lang)
              (pyOr tl u.default_target_lang) ia ig))).1,
          created_at := df.now } := by
  simp only [GenerateDeckUseCase.assemble, h]
  rfl

theorem assemble_snd_of_empty {u : GenerateDeckUseCase}
    {fresh : Nat → FreshEnv} {df : DeckFresh} {sentences : List String}
    {deck_name : String} {sl tl : Option String} {ia ig : Bool}
    (h : (processResults 0 (sentences.zip
        (u.gatherResults fresh sentences (pyOr sl u.default_source_lang)
          (pyOr tl u.default_target_lang) ia ig))).1.isEmpty = true) :
    (u.assemble fresh df sentences deck_name sl tl ia ig).2 =
      Sum.inl ("Failed: No cards generated for deck '" ++ deck_name ++ "'.") := by
  simp only [GenerateDeckUseCase.assemble, h]
  rfl

theorem assemble_snd_inr_fields {u : GenerateDeckUseCase}
    {fresh : Nat → FreshEnv} {df : DeckFresh} {sentences : List String}
    {deck_name : String} {sl tl : Option String} {ia ig : Bool} {d : Deck}
    (h : (u.assemble fresh df sentences deck_name sl tl ia ig).2 = Sum.inr d) :
    d.name = deck_name ∧
    d.language_pair = (pyOr sl u.default_source_lang,
                       pyOr tl u.default_target_lang) ∧
    d.cards = (processResults 0 (sentences.zip
      (u.gatherResults fresh sentences (pyOr sl u.default_source_lang)
        (pyOr tl u.default_target_lang) ia ig))).1 := by
  simp only [GenerateDeckUseCase.assemble] at h
  split at h
  · simp at h
  · simp only [Sum.inr.injEq] at h
    subst h
    exact ⟨rfl, rfl, rfl⟩

theorem execute_of_assemble_inr {u : GenerateDeckUseCase}
    {fresh : Nat → FreshEnv} {df : DeckFresh} {sentences : List String}
    {deck_name output_path : String} {sl tl : Option String} {ia ig : Bool}
    {d : Deck}
    (h : (u.assemble fresh df sentences deck_name sl tl ia ig).2 = Sum.inr d) :
    u.execute fresh df sentences deck_name output_path sl tl ia ig =
      u.exporter.export_deck d output_path := by
  unfold GenerateDeckUseCase.execute
  rw [h]

theorem execute_of_assemble_inl {u : GenerateDeckUseCase}
    {fresh : Nat → FreshEnv} {df : DeckFresh} {sentences : List String}
    {deck_name output_path : String} {sl tl : Option String} {ia ig : Bool}
    {msg : String}
    (h : (u.assemble fresh df sentences deck_name sl tl ia ig).2 = Sum.inl msg) :
    u.execute fresh df sentences deck_name output_path sl tl ia ig =
      Except.ok (some msg) := by
  unfold GenerateDeckUseCase.execute
  rw [h]

/-! ## Concrete fixtures for the closed witness and counterexample theorems -/

def defaultCard : FlashCard :=
  { sentence := { text := "", language := "", id := "", created_at := 0 },
    translation := { text := "", target_language := "" },
    word_breakdown := none, id := "", created_at := 0 }

def defaultDeck : Deck :=
  { name := "", language_pair := ("", ""), id := "", created_at := 0 }

def getOkCard : Except Err FlashCard → Option FlashCard
  | .ok c => some c
  | .error _ => none

def getInrDeck : String ⊕ Deck → Option Deck
  | .inr d => some d
  | .inl _ => none

/-- A stand-in hex digest used to instantiate the `sha256hexdigest` parameter
in closed statements (the universally quantified theorems hold for every such
function). -/
def fixedSha : String → String := fun _ => "4a7c3b21"

/-- A hex digest whose masked 31-bit value is zero, exercising the
zero-remapping branch of `generate_stable_id`. -/
def zeroSha : String → String := fun _ => "00000000"

def mockTranslator : TranslationService :=
  ⟨fun text _ tgt =>
    Except.ok (some { text := "T:" ++ text, target_language := tgt,
                      provider := "mock" })⟩

def failTranslator : TranslationService :=
  ⟨fun _ _ _ => Except.error (Err.service "translation API failure")⟩

/-- Fails exactly on the sentence text `"FAIL"`. -/
def mixedTranslator : TranslationService :=
  ⟨fun text _ tgt =>
    if text = "FAIL" then Except.error (Err.service "translation API failure")
    else Except.ok (some { text := "T:" ++ text, target_language := tgt,
                           provider := "mock" })⟩

def mockWordJe : Word :=
  { text := "Je", lemma_ := "je", pos := "pron", definition := "I" }

def mockDictionary : DictionaryService :=
  ⟨fun _ _ _ => Except.ok (some { words := [mockWordJe] })⟩

/-- A dictionary port that signals failure by returning `None`
(the failure convention documented in interfaces.py line 46). -/
def noneDictionary : DictionaryService := ⟨fun _ _ _ => Except.ok none⟩

/-- An audio port that always returns `(None, None)` (absent). -/
def absentAudio : AudioService := ⟨fun _ _ => Except.ok (none, none)⟩

def mockAsset : AudioFile :=
  { filename := "fr_abc123.mp3", format := AudioFormat.MP3, id := "audio-uuid" }

/-- An audio port that yields an asset plus raw bytes. -/
def assetAudio : AudioService :=
  ⟨fun _ _ => Except.ok (some mockAsset, some [1, 2, 3])⟩

/-- A storage port that signals failure by returning `None`
(the failure convention documented in interfaces.py line 105). -/
def noneStorage : StorageService := ⟨fun _ _ => Except.ok none⟩

def okStorage : StorageService :=
  ⟨fun _ _ => Except.ok (some "./storage/audio/fr_abc123.mp3")⟩

def nullExporter : DeckExporter := ⟨fun _ path => Except.ok (some path)⟩

def mkCardUse (t : TranslationService) (d : DictionaryService)
    (a : AudioService) (st : StorageService) : GenerateCardUseCase :=
  { translator := t, dictionary := d, audio := a, storage := st,
    grammar := none, default_source_lang := "fr", default_target_lang := "en" }

def mkDeckUse (cg : GenerateCardUseCase) : GenerateDeckUseCase :=
  { card_generator := cg, exporter := nullExporter, storage := okStorage,
    default_source_lang := "fr", default_target_lang := "en" }

def freshAt : Nat → FreshEnv := fun i =>
  { sentence_id := "sent-uuid-" ++ toString i,
    card_id := "card-uuid-" ++ toString i, now := 7 }

def deckFreshA : DeckFresh := { deck_id := "deck-uuid-a", now := 7 }

def deckFreshB : DeckFresh := { deck_id := "deck-uuid-b", now := 9 }

/-! ## Claim C6 -/

/-- C6: the identifier deriver `_generate_stable_id` is a pure total function:
calling it twice on the same `(base_string, salt)` yields the same value, the
result always lies in `[1, 2^31 - 1]`, and a zero masked hash value is
remapped to 1.  Totality of the Lean definition embeds "never throws". -/
theorem c6_stable_id_deterministic_total_in_range
    (sha256hexdigest : String → String) (s k : String) :
    generate_stable_id sha256hexdigest s k =
      generate_stable_id sha256hexdigest s k ∧
    1 ≤ generate_stable_id sha256hexdigest s k ∧
    generate_stable_id sha256hexdigest s k ≤ 2 ^ 31 - 1 ∧
    (hexToNat ((sha256hexdigest (s ++ "-" ++ k)).take 8) &&& 0x7FFFFFFF = 0 →
      generate_stable_id sha256hexdigest s k = 1) := by
  have hb : hexToNat ((sha256hexdigest (s ++ "-" ++ k)).take 8) &&& 0x7FFFFFFF ≤
      0x7FFFFFFF := Nat.and_le_right
  have h31 : (2 : Nat) ^ 31 - 1 = 0x7FFFFFFF := by norm_num
  refine ⟨rfl, ?_, ?_, ?_⟩
  · simp only [generate_stable_id]
    split
    · next hne => omega
    · omega
  · simp only [generate_stable_id]
    rw [h31]
    split
    · exact hb
    · omega
  · intro h0
    simp only [generate_stable_id]
    split
    · next hne => exact absurd h0 hne
    · rfl

/-- Witness for C6: the theorem applied at concrete hash functions; the first
conjunct discharges the zero-remap implication at a digest whose masked value
is zero. -/
theorem c6_stable_id_witness :
    generate_stable_id zeroSha "Deck-fr-en" DEFAULT_DECK_ID_SALT = 1 ∧
    1 ≤ generate_stable_id fixedSha "s" "k" ∧
    generate_stable_id fixedSha "s" "k" ≤ 2 ^ 31 - 1 :=
  ⟨(c6_stable_id_deterministic_total_in_range zeroSha "Deck-fr-en"
      DEFAULT_DECK_ID_SALT).2.2.2 (by decide),
   (c6_stable_id_deterministic_total_in_range fixedSha "s" "k").2.1,
   (c6_stable_id_deterministic_total_in_range fixedSha "s" "k").2.2.1⟩

/-! ## Claim C7 -/

/-- C7: assembling a Deck with the same name and the same (resolved) language
pair twice — with different fresh uuids, different sentence batches, different
flags — yields two decks to which `export_deck` assigns the same stable deck
identifier, so repeated exports update rather than duplicate. -/
theorem c7_deck_id_idempotent (sha256hexdigest : String → String)
    (u : GenerateDeckUseCase) (fresh1 fresh2 : Nat → FreshEnv)
    (df1 df2 : DeckFresh) (sents1 sents2 : List String) (deck_name : String)
    (sl tl : Option String) (ia1 ig1 ia2 ig2 : Bool) (d1 d2 : Deck)
    (h1 : (u.assemble fresh1 df1 sents1 deck_name sl tl ia1 ig1).2 = Sum.inr d1)
    (h2 : (u.assemble fresh2 df2 sents2 deck_name sl tl ia2 ig2).2 = Sum.inr d2) :
    deckIdOf sha256hexdigest d1 = deckIdOf sha256hexdigest d2 := by
  obtain ⟨hn1, hp1, -⟩ := assemble_snd_inr_fields h1
  obtain ⟨hn2, hp2, -⟩ := assemble_snd_inr_fields h2
  simp [deckIdOf, hn1, hn2, hp1, hp2]

def stdDeckUse : GenerateDeckUseCase :=
  mkDeckUse (mkCardUse mockTranslator mockDictionary absentAudio okStorage)

def c7_run1 : String ⊕ Deck :=
  (stdDeckUse.assemble freshAt deckFreshA ["Bonjour"] "D" none none false false).2

def c7_run2 : String ⊕ Deck :=
  (stdDeckUse.assemble freshAt deckFreshB ["Salut", "Bonjour"] "D" none none
    false false).2

def c7_deck1 : Deck := (getInrDeck c7_run1).getD defaultDeck

def c7_deck2 : Deck := (getInrDeck c7_run2).getD defaultDeck

/-- Witness for C7: two concrete assembly runs of a deck named `"D"` (with
different uuids, times and sentence batches) both produce decks, and the
theorem applied to them gives equal stable deck identifiers. -/
theorem c7_deck_id_witness :
    c7_run1 = Sum.inr c7_deck1 ∧ c7_run2 = Sum.inr c7_deck2 ∧
    deckIdOf fixedSha c7_deck1 = deckIdOf fixedSha c7_deck2 :=
  ⟨rfl, rfl,
   c7_deck_id_idempotent fixedSha stdDeckUse freshAt freshAt deckFreshA deckFreshB
     ["Bonjour"] ["Salut", "Bonjour"] "D" none none false false false false
     c7_deck1 c7_deck2 rfl rfl⟩

/-! ## Claim C9 -/

/-- C9: with `include_audio = True` and an Audio port that always returns
`(None, None)` (absent), `execute` still returns a complete Card whose audio
field is `None` — audio absence is non-fatal.  (The translation, dictionary
and grammar steps are assumed not to raise, since any port may abort the card
by raising for its own reasons.) -/
theorem c9_audio_absence_nonfatal (u : GenerateCardUseCase) (fresh : FreshEnv)
    (text : String) (sl tl : Option String) (ig : Bool)
    (t : Translation) (wb : Option WordBreakdown) (notes : List GrammarNote)
    (haud : ∀ txt lang, u.audio.generate_audio txt lang = Except.ok (none, none))
    (htr : u.translator.translate text (pyOr sl u.default_source_lang)
        (pyOr tl u.default_target_lang) = Except.ok (some t))
    (hdict : u.dictionary.analyze_sentence text (pyOr sl u.default_source_lang)
        (pyOr tl u.default_target_lang) = Except.ok wb)
    (hgr : u.grammarStep text (pyOr sl u.default_source_lang) ig =
        Except.ok notes) :
    (getOkCard (u.execute fresh text sl tl true ig)).map FlashCard.audio =
      some none := by
  have haudio : u.audioStep text (pyOr sl u.default_source_lang) true =
      Except.ok none := by
    simp [GenerateCardUseCase.audioStep, haud]
  simp [GenerateCardUseCase.execute, htr, hdict, haudio, hgr, getOkCard]

def c9_use : GenerateCardUseCase :=
  mkCardUse mockTranslator mockDictionary absentAudio okStorage

/-- Witness for C9: a concrete card assembler whose audio port always returns
absent still produces a card, with `audio = None`. -/
theorem c9_audio_absence_witness :
    (getOkCard (c9_use.execute (freshAt 0) "Bonjour" none none true true)).map
      FlashCard.audio = some none :=
  c9_audio_absence_nonfatal c9_use (freshAt 0) "Bonjour" none none true
    { text := "T:Bonjour", target_language := "en", provider := "mock" }
    (some { words := [mockWordJe] }) []
    (fun _ _ => rfl) rfl rfl rfl

/-! ## Claim C10 -/

/-- C10 (implicit): in every Deck the batch phase produces, the language pair
is the resolved `(pyOr source_lang default, pyOr target_lang default)` pair —
`None` and the empty string both select the constructor-time default — and
every card's `sentence.language` equals the deck's source language.  The
resolution hypothesis `default_source_lang ≠ ""` reflects that the
constructor-time defaults are real language codes (an empty default would be
falsy in Python and be re-substituted downstream by the card generator's own
default). -/
theorem c10_deck_language_resolution (u : GenerateDeckUseCase)
    (fresh : Nat → FreshEnv) (df : DeckFresh) (sentences : List String)
    (deck_name : String) (sl tl : Option String) (ia ig : Bool) (d : Deck)
    (hdef : u.default_source_lang ≠ "")
    (h : (u.assemble fresh df sentences deck_name sl tl ia ig).2 = Sum.inr d) :
    d.language_pair =
      (pyOr sl u.default_source_lang, pyOr tl u.default_target_lang) ∧
    ∀ c ∈ d.cards, c.sentence.language = d.language_pair.1 := by
  obtain ⟨-, hp, hc⟩ := assemble_snd_inr_fields h
  refine ⟨hp, ?_⟩
  intro c hcmem
  rw [hc] at hcmem
  obtain ⟨p, hpmem, hpok⟩ := mem_processResults_cards hcmem
  obtain ⟨s, r⟩ := p
  simp only at hpok
  have hrmem := (List.of_mem_zip hpmem).2
  rw [hpok] at hrmem
  simp only [GenerateDeckUseCase.gatherResults, List.mem_map] at hrmem
  obtain ⟨q, hq, hfq⟩ := hrmem
  have hsent := execute_ok_sentence hfq
  have hlang : c.sentence.language =
      pyOr (some (pyOr sl u.default_source_lang))
        u.card_generator.default_source_lang := by
    rw [hsent]
  rw [pyOr_some_of_ne _ (pyOr_ne_empty hdef)] at hlang
  rw [hlang, hp]

def c10_runW : String ⊕ Deck :=
  (stdDeckUse.assemble freshAt deckFreshA ["Bonjour", "Salut"] "D10"
    (some "") none false false).2

def c10_deckW : Deck := (getInrDeck c10_runW).getD defaultDeck

/-- Witness for C10: a concrete run where the caller passes the empty string
for the source language; the deck's pair is the resolved `("fr", "en")` and
its first card's sentence language is `"fr"`. -/
theorem c10_deck_language_witness :
    c10_runW = Sum.inr c10_deckW ∧
    c10_deckW.language_pair = ("fr", "en") ∧
    (c10_deckW.cards.headD defaultCard).sentence.language = "fr" := by
  have h : c10_runW = Sum.inr c10_deckW := rfl
  obtain ⟨hp, hall⟩ := c10_deck_language_resolution stdDeckUse freshAt
    deckFreshA ["Bonjour", "Salut"] "D10" (some "") none false false c10_deckW
    (by decide) h
  have hmem : c10_deckW.cards.headD defaultCard ∈ c10_deckW.cards := by decide
  have h3 := hall (c10_deckW.cards.headD defaultCard) hmem
  rw [hp] at h3
  exact ⟨h, by rw [hp]; rfl, h3⟩

/-! ## Claim C1 -/

/-- C1: in a batch of `N` sentences where the card generation of exactly one
(the one at index `A.length`) raises and all others succeed, the batch phase
produces a Deck with exactly `N - 1` cards, the failure is reported once with
its index and originating sentence text, and `execute` reaches the export
call — no exception propagates out of the batch phase (`assemble` is a total
function whose only error-producing continuation is the exporter itself). -/
theorem c1_partial_failure_isolation (u : GenerateDeckUseCase)
    (fresh : Nat → FreshEnv) (df : DeckFresh) (sentences : List String)
    (deck_name output_path : String) (sl tl : Option String) (ia ig : Bool)
    (A B : List (Except Err FlashCard)) (e : Err)
    (hR : u.gatherResults fresh sentences (pyOr sl u.default_source_lang)
        (pyOr tl u.default_target_lang) ia ig = A ++ Except.error e :: B)
    (hA : ∀ r ∈ A, ∃ c, r = Except.ok c)
    (hB : ∀ r ∈ B, ∃ c, r = Except.ok c)
    (hN : A ≠ [] ∨ B ≠ []) :
    ((getInrDeck (u.assemble fresh df sentences deck_name sl tl ia ig).2).map
      fun d => d.cards.length + 1) = some sentences.length ∧
    (u.assemble fresh df sentences deck_name sl tl ia ig).1 =
      [(A.length, sentences.getD A.length "")] ∧
    u.execute fresh df sentences deck_name output_path sl tl ia ig =
      u.exporter.export_deck
        ((getInrDeck
          (u.assemble fresh df sentences deck_name sl tl ia ig).2).getD
          defaultDeck)
        output_path := by
  have hlen : sentences.length = A.length + 1 + B.length := by
    have hg := gatherResults_length u fresh sentences
      (pyOr sl u.default_source_lang) (pyOr tl u.default_target_lang) ia ig
    rw [hR] at hg
    simp [List.length_append] at hg
    omega
  obtain ⟨hclen, hfail⟩ := processResults_one_error B e A sentences 0 hlen hA hB
  rw [← hR] at hclen hfail
  have hne : (processResults 0 (sentences.zip
      (u.gatherResults fresh sentences (pyOr sl u.default_source_lang)
        (pyOr tl u.default_target_lang) ia ig))).1.isEmpty = false := by
    rcases hcase : (processResults 0 (sentences.zip
        (u.gatherResults fresh sentences (pyOr sl u.default_source_lang)
          (pyOr tl u.default_target_lang) ia ig))).1 with _ | ⟨a, as⟩
    · exfalso
      rw [hcase] at hclen
      simp only [List.length_nil] at hclen
      rcases hN with hns | hns
      · have := List.length_pos.mpr hns
        omega
      · have := List.length_pos.mpr hns
        omega
    · rfl
  have hsnd := @assemble_snd_of_not_empty u fresh df sentences deck_name
    sl tl ia ig hne
  refine ⟨?_, ?_, ?_⟩
  · rw [hsnd]
    exact congrArg some hclen
  · rw [assemble_fst]
    simp only [hfail, Nat.zero_add]
  · rw [execute_of_assemble_inr hsnd, hsnd]
    rfl

def mixedDeckUse : GenerateDeckUseCase :=
  mkDeckUse (mkCardUse mixedTranslator mockDictionary absentAudio okStorage)

def c1_A : List (Except Err FlashCard) :=
  [mixedDeckUse.card_generator.execute (freshAt 0) "Bonjour" (some "fr")
    (some "en") false false]

def c1_B : List (Except Err FlashCard) :=
  [mixedDeckUse.card_generator.execute (freshAt 2) "Salut" (some "fr")
    (some "en") false false]

def c1_runW : List (Nat × String) × (String ⊕ Deck) :=
  mixedDeckUse.assemble freshAt deckFreshA ["Bonjour", "FAIL", "Salut"] "D1"
    none none false false

def c1_deckW : Deck := (getInrDeck c1_runW.2).getD defaultDeck

/-- Witness for C1: a concrete 3-sentence batch whose middle sentence raises a
translation failure yields a deck of 2 cards and one reported failure. -/
theorem c1_partial_failure_witness :
    c1_runW.2 = Sum.inr c1_deckW ∧ c1_deckW.cards.length + 1 = 3 ∧
    c1_runW.1 = [(1, "FAIL")] := by
  have h := c1_partial_failure_isolation mixedDeckUse freshAt deckFreshA
    ["Bonjour", "FAIL", "Salut"] "D1" "./out/deck.apkg" none none false false
    c1_A c1_B (Err.service "translation API failure") rfl
    (by
      intro r hr
      simp only [c1_A, List.mem_singleton] at hr
      subst hr
      exact ⟨_, rfl⟩)
    (by
      intro r hr
      simp only [c1_B, List.mem_singleton] at hr
      subst hr
      exact ⟨_, rfl⟩)
    (Or.inl (by simp [c1_A]))
  refine ⟨rfl, ?_, ?_⟩
  · have h1 : Option.map (fun d => d.cards.length + 1) (getInrDeck c1_runW.2) =
        some 3 := by simpa using h.1
    rw [show getInrDeck c1_runW.2 = some c1_deckW from rfl] at h1
    simpa using h1
  · have h2 : c1_runW.1 =
        [(c1_A.length, ["Bonjour", "FAIL", "Salut"].getD c1_A.length "")] :=
      h.2.1
    simpa [c1_A] using h2

/-! ## Claim C5 -/

/-- C5: order preservation — for input sentences `[s0, s1, s2]` where `s1`'s
card generation fails and `s0`, `s2` succeed with cards `c0`, `c2`, the
produced Deck's cards are exactly `[c0, c2]`, in input-index order. -/
theorem c5_order_preservation (u : GenerateDeckUseCase)
    (fresh : Nat → FreshEnv) (df : DeckFresh) (s0 s1 s2 : String)
    (deck_name : String) (sl tl : Option String) (ia ig : Bool)
    (c0 c2 : FlashCard) (e : Err)
    (h0 : u.card_generator.execute (fresh 0) s0
        (some (pyOr sl u.default_source_lang))
        (some (pyOr tl u.default_target_lang)) ia ig = Except.ok c0)
    (h1 : u.card_generator.execute (fresh 1) s1
        (some (pyOr sl u.default_source_lang))
        (some (pyOr tl u.default_target_lang)) ia ig = Except.error e)
    (h2 : u.card_generator.execute (fresh 2) s2
        (some (pyOr sl u.default_source_lang))
        (some (pyOr tl u.default_target_lang)) ia ig = Except.ok c2) :
    (getInrDeck (u.assemble fresh df [s0, s1, s2] deck_name sl tl ia ig).2).map
      Deck.cards = some [c0, c2] := by
  have hg : u.gatherResults fresh [s0, s1, s2] (pyOr sl u.default_source_lang)
      (pyOr tl u.default_target_lang) ia ig =
      [Except.ok c0, Except.error e, Except.ok c2] := by
    simp [GenerateDeckUseCase.gatherResults, List.enum, List.enumFrom,
      h0, h1, h2]
  have hpr : processResults 0 ([s0, s1, s2].zip
      (u.gatherResults fresh [s0, s1, s2] (pyOr sl u.default_source_lang)
        (pyOr tl u.default_target_lang) ia ig)) = ([c0, c2], [(1, s1)]) := by
    rw [hg]
    rfl
  have hne : (processResults 0 ([s0, s1, s2].zip
      (u.gatherResults fresh [s0, s1, s2] (pyOr sl u.default_source_lang)
        (pyOr tl u.default_target_lang) ia ig))).1.isEmpty = false := by
    rw [hpr]
    rfl
  have hsnd := @assemble_snd_of_not_empty u fresh df [s0, s1, s2] deck_name
    sl tl ia ig hne
  rw [hsnd]
  show some _ = _
  rw [hpr]

def c5_c0 : FlashCard :=
  (getOkCard (mixedDeckUse.card_generator.execute (freshAt 0) "Guten Tag"
    (some "fr") (some "en") false false)).getD defaultCard

def c5_c2 : FlashCard :=
  (getOkCard (mixedDeckUse.card_generator.execute (freshAt 2) "Tschuss"
    (some "fr") (some "en") false false)).getD defaultCard

/-- Witness for C5: a concrete 3-sentence batch whose middle sentence fails
produces the deck `[card(s0), card(s2)]` in input order. -/
theorem c5_order_witness :
    (getInrDeck (mixedDeckUse.assemble freshAt deckFreshA
      ["Guten Tag", "FAIL", "Tschuss"] "D5" none none false false).2).map
      Deck.cards = some [c5_c0, c5_c2] :=
  c5_order_preservation mixedDeckUse freshAt deckFreshA "Guten Tag" "FAIL"
    "Tschuss" "D5" none none false false c5_c0 c5_c2
    (Err.service "translation API failure") rfl rfl rfl

/-! ## Claim C4 -/

def allFailDeckUse : GenerateDeckUseCase :=
  mkDeckUse (mkCardUse failTranslator mockDictionary absentAudio okStorage)

/-- Counterexample for C4: a concrete batch in which every sentence's card
generation fails.  `execute` does not fail with an `AllCardsFailed` condition
— no such exception exists anywhere in the source — it returns *normally*
(`Except.ok`) with the failure-indicator string of generate_deck.py line 105.
(The "produces no Deck, exports nothing" parts of the claim do hold; see the
amended theorem.) -/
theorem c4_all_failed_cex :
    (allFailDeckUse.assemble freshAt deckFreshA ["Bonjour", "Salut"] "D4"
      none none false false).2 =
      Sum.inl "Failed: No cards generated for deck 'D4'." ∧
    allFailDeckUse.execute freshAt deckFreshA ["Bonjour", "Salut"] "D4"
      "./out/deck.apkg" none none false false =
      Except.ok (some "Failed: No cards generated for deck 'D4'.") :=
  ⟨rfl, rfl⟩

/-- C4 (amended): when every sentence's card generation fails, the batch
phase produces no Deck and `execute` returns normally with the sentinel
string `Failed: No cards generated for deck '<name>'.` (generate_deck.py
line 105) rather than raising an `AllCardsFailed` condition; the conclusion
holds for every exporter and never mentions it, so nothing is exported. -/
theorem c4_all_failed_returns_indicator (u : GenerateDeckUseCase)
    (fresh : Nat → FreshEnv) (df : DeckFresh) (sentences : List String)
    (deck_name output_path : String) (sl tl : Option String) (ia ig : Bool)
    (hAll : ∀ r ∈ u.gatherResults fresh sentences
        (pyOr sl u.default_source_lang) (pyOr tl u.default_target_lang) ia ig,
        ∃ e, r = Except.error e) :
    (u.assemble fresh df sentences deck_name sl tl ia ig).2 =
      Sum.inl ("Failed: No cards generated for deck '" ++ deck_name ++ "'.") ∧
    u.execute fresh df sentences deck_name output_path sl tl ia ig =
      Except.ok
        (some ("Failed: No cards generated for deck '" ++ deck_name ++ "'.")) := by
  have hall2 : ∀ p ∈ sentences.zip (u.gatherResults fresh sentences
      (pyOr sl u.default_source_lang) (pyOr tl u.default_target_lang) ia ig),
      ∃ e, p.2 = Except.error e := by
    intro p hp
    obtain ⟨s, r⟩ := p
    exact hAll r (List.of_mem_zip hp).2
  have hempty := processResults_all_error 0 _ hall2
  have hie : (processResults 0 (sentences.zip (u.gatherResults fresh sentences
      (pyOr sl u.default_source_lang) (pyOr tl u.default_target_lang) ia
      ig))).1.isEmpty = true := by
    rw [hempty]
    rfl
  have hsnd := @assemble_snd_of_empty u fresh df sentences deck_name
    sl tl ia ig hie
  exact ⟨hsnd, execute_of_assemble_inl hsnd⟩

/-- Witness for the amended C4, applied at a concrete all-failing batch. -/
theorem c4_all_failed_witness :
    (allFailDeckUse.assemble freshAt deckFreshB ["Hallo"] "D4W" none none
      false false).2 =
      Sum.inl "Failed: No cards generated for deck 'D4W'." ∧
    allFailDeckUse.execute freshAt deckFreshB ["Hallo"] "D4W"
      "./out/deck.apkg" none none false false =
      Except.ok (some "Failed: No cards generated for deck 'D4W'.") := by
  have h := c4_all_failed_returns_indicator allFailDeckUse freshAt deckFreshB
    ["Hallo"] "D4W" "./out/deck.apkg" none none false false
    (by
      intro r hr
      have hg : allFailDeckUse.gatherResults freshAt ["Hallo"]
          (pyOr none allFailDeckUse.default_source_lang)
          (pyOr none allFailDeckUse.default_target_lang) false false =
          [Except.error (Err.service "translation API failure")] := rfl
      rw [hg, List.mem_singleton] at hr
      exact ⟨_, hr⟩)
  exact h

/-! ## Claim C2 -/

def c2_use : GenerateCardUseCase :=
  mkCardUse mockTranslator noneDictionary absentAudio okStorage

/-- C2 (code bug): interfaces.py line 46 declares that `analyze_sentence`
signals failure by returning `None`, and
tests/unit/test_generate_card_use_case.py
(`test_generate_card_handles_dictionary_failure`) requires `execute` to raise
on exactly this input — but generate_card.py lines 92-96 never check the
result, and lines 137-146 store it in the card unchecked.  Evaluating the
embedded code at the failing input: `execute` *returns a Card* whose
`word_breakdown` is `None`, instead of failing with an analysis-failure
condition. -/
theorem c2_dictionary_none_returns_card :
    (getOkCard (c2_use.execute (freshAt 0) "This should fail analysis"
      none none false false)).map FlashCard.word_breakdown = some none := rfl

/-! ## Claim C3 -/

def c3_use : GenerateCardUseCase :=
  mkCardUse mockTranslator mockDictionary assetAudio noneStorage

/-- C3 (code bug): interfaces.py line 105 declares that `save_audio` signals
failure by returning `None`, and tests/unit/test_generate_card_use_case.py
(`test_generate_card_handles_audio_storage_failure`) requires the resulting
card to have `audio is None` — but generate_card.py lines 112-119 never
inspect a `None` save result: the asset is attached to the card regardless.
Evaluating the embedded code at the failing input: the returned Card still
references the asset (language set, no URL) even though storage failed. -/
theorem c3_storage_failure_keeps_asset :
    (getOkCard (c3_use.execute (freshAt 0) "Bonjour" none none true
      false)).map FlashCard.audio =
      some (some { mockAsset with language := some "fr" }) := rfl

/-! ## Claim C8 -/

def c8_card1 : FlashCard :=
  (getOkCard (c9_use.execute (freshAt 1) "Bonjour" none none false
    false)).getD defaultCard

def c8_card2 : FlashCard :=
  (getOkCard (c9_use.execute (freshAt 2) "Bonjour" none none false
    false)).getD defaultCard

/-- Counterexample for C8: two card-generation runs over the same sentence
text `"Bonjour"` under the same template (the model id for `("fr", "en")`)
both succeed, but each run draws a fresh uuid for its Sentence id, so the
argument pairs the exporter passes to `genanki.guid_for`
(genanki_exporter.py line 546) differ between the runs.  `guid_for` is a
deterministic hash of exactly these arguments (distinct inputs give distinct
guids up to hash collision, the regime the spec itself assumes), so the
re-generated note is *not* recognized as an update of the first. -/
theorem c8_note_guid_cex :
    getOkCard (c9_use.execute (freshAt 1) "Bonjour" none none false false) =
      some c8_card1 ∧
    getOkCard (c9_use.execute (freshAt 2) "Bonjour" none none false false) =
      some c8_card2 ∧
    note_guid_args c8_card1 (model_id_of fixedSha ("fr", "en")) ≠
      note_guid_args c8_card2 (model_id_of fixedSha ("fr", "en")) := by
  refine ⟨rfl, rfl, ?_⟩
  decide

/-- C8 (amended): the note identifier inputs are a pure function of the
card's `sentence.id` and the template's model id: any two cards carrying the
same sentence id — in particular the *same generated card* exported twice —
yield identical `guid_for` arguments under the same template, hence the same
note guid.  Across two generation runs, however, the Sentence ids are fresh
uuids and the identifiers differ (see the counterexample). -/
theorem c8_note_guid_deterministic (c1 c2 : FlashCard) (model_id : Nat)
    (h : c1.sentence.id = c2.sentence.id) :
    note_guid_args c1 model_id = note_guid_args c2 model_id := by
  simp [note_guid_args, h]

def c8_card1_later : FlashCard :=
  { c8_card1 with created_at := 99, id := "card-uuid-other" }

/-- Witness for the amended C8: re-exporting the same sentence id (here via a
copy of the first generated card with different card uuid and timestamp)
yields identical note-guid arguments. -/
theorem c8_note_guid_witness :
    note_guid_args c8_card1_later (model_id_of fixedSha ("fr", "en")) =
      note_guid_args c8_card1 (model_id_of fixedSha ("fr", "en")) :=
  c8_note_guid_deterministic c8_card1_later c8_card1
    (model_id_of fixedSha ("fr", "en")) rfl

end LearnitAnki
